import Mathlib

/-!
Verification of the wake-cycle state machine of the Optimus agent template
(function_app.py). The Python classes AgentState and AgentCore, the HTTP
task-creation handler add_task, and the state-store fallback functions
_load_state and _save_state are embedded as pure Lean functions. Calls to
datetime.datetime.utcnow().isoformat() are modelled by an abstract Clock
together with an explicit tick counter threaded through the computation:
the k-th call to utcnow returns (c.now k). Log-only utcnow calls, which do
not flow into any state or result, are not ticked.
-/

namespace OptimusAgent

/-- A task record as built by the add_task handler (function_app.py,
add_task): id, name, description, priority, status, created_at. -/
structure Task where
  id : Nat
  name : String
  description : String
  priority : String
  status : String
  created_at : String
  deriving DecidableEq

/-- A wake-history entry as built by AgentState.record_wake. -/
structure WakeHistoryEntry where
  wake_number : Nat
  timestamp : Option String
  actions_count : Nat
  status : String
  deriving DecidableEq

/-- The in-memory AgentState object (function_app.py, class AgentState).
last_wake is None until the first wake, hence Option. -/
structure AgentState where
  wake_count : Nat
  last_wake : Option String
  active_tasks : List Task
  capabilities : List (String × String)
  wake_history : List WakeHistoryEntry
  deriving DecidableEq

/-- The serialized state mapping produced by AgentState.to_dict: the same
five keys, always all present. -/
structure StateDict where
  wake_count : Nat
  last_wake : Option String
  active_tasks : List Task
  capabilities : List (String × String)
  wake_history : List WakeHistoryEntry
  deriving DecidableEq

/-- AgentState.__init__ applied to a non-empty state mapping: every key is
present in a StateDict, so each state_data.get call returns the stored
value. -/
def AgentState.init (d : StateDict) : AgentState :=
  ⟨d.wake_count, d.last_wake, d.active_tasks, d.capabilities, d.wake_history⟩

/-- AgentState.__init__ applied to None or to the empty mapping (both are
falsy in Python): every field takes its default. -/
def AgentState.initEmpty : AgentState :=
  ⟨0, none, [], [], []⟩

/-- AgentState.__init__ on an optional raw mapping; none models the empty
Python dict. -/
def AgentState.ofRaw : Option StateDict → AgentState
  | none => AgentState.initEmpty
  | some d => AgentState.init d

/-- AgentState.to_dict: serializes the five fields, slicing wake_history to
its last 100 entries (Python wake_history[-100:], which is List.drop
(length - 100) with truncated subtraction). -/
def AgentState.to_dict (s : AgentState) : StateDict :=
  ⟨s.wake_count, s.last_wake, s.active_tasks, s.capabilities,
   s.wake_history.drop (s.wake_history.length - 100)⟩

/-- Abstract source of timestamps: (c.now k) is the string returned by the
k-th call to datetime.datetime.utcnow().isoformat(). -/
structure Clock where
  now : Nat → String

/-- AgentState.increment_wake: adds one to wake_count and stamps last_wake
with a fresh utcnow (consuming one clock tick). -/
def AgentState.increment_wake (c : Clock) (t : Nat) (s : AgentState) :
    AgentState × Nat :=
  ({ s with wake_count := s.wake_count + 1, last_wake := some (c.now t) }, t + 1)

/-- The result mapping built by AgentCore.wake. -/
structure WakeResult where
  wake_number : Nat
  timestamp : String
  actions : List String
  status : String
  deriving DecidableEq

/-- AgentState.record_wake: appends one history entry derived from the
current wake_count, last_wake and the given cycle result. -/
def AgentState.record_wake (results : WakeResult) (s : AgentState) : AgentState :=
  { s with wake_history :=
      s.wake_history ++ [⟨s.wake_count, s.last_wake, results.actions.length, results.status⟩] }

/-- AgentCore._check_messages: always returns the empty list (reserved
extension point). -/
def AgentCore.check_messages (_s : AgentState) : List String := []

/-- AgentCore._execute_tasks: collects the name of every task in
active_tasks whose status equals the pending marker, in stored order,
without mutating any task. -/
def AgentCore.execute_tasks (s : AgentState) : List String :=
  (s.active_tasks.filter fun task => task.status == "pending").map Task.name

/-- AgentCore._check_improvements: always returns the empty list (reserved
extension point). -/
def AgentCore.check_improvements (_s : AgentState) : List String := []

/-- AgentCore._update_metrics: logging only, no effect on state or result. -/
def AgentCore.update_metrics (_results : WakeResult) : Unit := ()

/-- AgentCore.wake: increments the counter, builds the result record with a
second fresh utcnow as its timestamp, runs the four phases in order, and
appends one action string per phase that returned non-trivial work. The
returned state is the post-increment state; wake itself touches no other
field. -/
def AgentCore.wake (c : Clock) (t : Nat) (s : AgentState) :
    WakeResult × AgentState × Nat :=
  let st := AgentState.increment_wake c t s
  let s1 := st.1
  let t1 := st.2
  let r0 : WakeResult := ⟨s1.wake_count, c.now t1, [], "healthy"⟩
  let t2 := t1 + 1
  let messages := AgentCore.check_messages s1
  let r1 := if messages ≠ [] then
      { r0 with actions := r0.actions ++ ["Processed " ++ toString messages.length ++ " messages"] }
    else r0
  let completed := AgentCore.execute_tasks s1
  let r2 := if completed ≠ [] then
      { r1 with actions := r1.actions ++ ["Completed " ++ toString completed.length ++ " tasks"] }
    else r1
  let improvements := AgentCore.check_improvements s1
  let r3 := if improvements ≠ [] then
      { r2 with actions := r2.actions ++ ["Identified " ++ toString improvements.length ++ " improvements"] }
    else r2
  let _ := AgentCore.update_metrics r3
  (r3, s1, t2)

/-- A choice of implementations for the four wake-cycle phases, each of
which may raise (modelled by Except). The reference implementations are
defaultPhases; the parameterization makes the control flow of wake
provable for hypothetical failing phases as well. -/
structure Phases where
  check_messages : AgentState → Except String (List String)
  execute_tasks : AgentState → Except String (List String)
  check_improvements : AgentState → Except String (List String)
  update_metrics : WakeResult → Except String Unit

/-- AgentCore.wake with the phases abstracted, translated with the exact
control flow of the source: the body of wake contains no try/except, so an
exception raised by a phase propagates to the caller and the remaining
phases do not run. The state component reflects Python in-place mutation:
the increment already applied survives the exception. -/
def AgentCore.wakeWith (p : Phases) (c : Clock) (t : Nat) (s : AgentState) :
    Except String WakeResult × AgentState × Nat :=
  let st := AgentState.increment_wake c t s
  let s1 := st.1
  let t1 := st.2
  let r0 : WakeResult := ⟨s1.wake_count, c.now t1, [], "healthy"⟩
  let t2 := t1 + 1
  let outcome : Except String WakeResult :=
    match p.check_messages s1 with
    | Except.error e => Except.error e
    | Except.ok messages =>
      let r1 := if messages ≠ [] then
          { r0 with actions := r0.actions ++ ["Processed " ++ toString messages.length ++ " messages"] }
        else r0
      match p.execute_tasks s1 with
      | Except.error e => Except.error e
      | Except.ok completed =>
        let r2 := if completed ≠ [] then
            { r1 with actions := r1.actions ++ ["Completed " ++ toString completed.length ++ " tasks"] }
          else r1
        match p.check_improvements s1 with
        | Except.error e => Except.error e
        | Except.ok improvements =>
          let r3 := if improvements ≠ [] then
              { r2 with actions := r2.actions ++ ["Identified " ++ toString improvements.length ++ " improvements"] }
            else r2
          match p.update_metrics r3 with
          | Except.error e => Except.error e
          | Except.ok _ => Except.ok r3
  (outcome, s1, t2)

/-- The phase implementations actually present in AgentCore: all four are
total functions, so none can raise. -/
def AgentCore.defaultPhases : Phases :=
  ⟨fun s => Except.ok (AgentCore.check_messages s),
   fun s => Except.ok (AgentCore.execute_tasks s),
   fun s => Except.ok (AgentCore.check_improvements s),
   fun r => Except.ok (AgentCore.update_metrics r)⟩

/-- n successive wake cycles over the same state object, threading the
clock tick. Returns the final state and tick. -/
def AgentCore.iterWake (c : Clock) : Nat → AgentState → Nat → AgentState × Nat
  | 0, s, t => (s, t)
  | n + 1, s, t =>
    let r := AgentCore.wake c t s
    AgentCore.iterWake c n r.2.1 r.2.2

/-- The process-global in-memory fallback store (_in_memory_state in
function_app.py). The cached raw mapping is an Option StateDict: none
models the empty Python dict, the initial value of _in_memory_state. -/
structure StoreState where
  cache : Option StateDict
  deriving DecidableEq

/-- The store at process start: _in_memory_state is the empty dict. -/
def initialStore : StoreState := ⟨none⟩

/-- The _load_state function for the unconfigured-backend case
(AZURE_STORAGE_CONNECTION unset, so _get_blob_client returns None): the
function returns a copy of _in_memory_state and leaves the store alone. -/
def load_state (st : StoreState) : Option StateDict × StoreState :=
  (st.cache, st)

/-- The _save_state function for the unconfigured-backend case: it
overwrites _in_memory_state with a copy of the given mapping; with no blob
client the durable branch is skipped. -/
def save_state (d : StateDict) (_st : StoreState) : StoreState :=
  ⟨some d⟩

/-- The task backlog currently held by the store: the active_tasks of the
AgentState reconstructed from the cached raw mapping. -/
def StoreState.backlog (st : StoreState) : List Task :=
  (AgentState.ofRaw st.cache).active_tasks

/-- The request body seen by the add_task handler: invalid models a body
on which req.get_json() raises ValueError; json carries the three fields
the handler reads, each possibly missing. -/
inductive ReqBody where
  | invalid : ReqBody
  | json : Option String → Option String → Option String → ReqBody
  deriving DecidableEq

/-- The HTTP response of the add_task handler: ok is the 200 success body
carrying the created task, badRequest is the 400 response with its error
message. -/
inductive TaskResponse where
  | ok : Task → TaskResponse
  | badRequest : String → TaskResponse
  deriving DecidableEq

/-- The add_task HTTP handler (function_app.py, add_task): a body that is
not valid JSON yields 400 Invalid JSON; a missing or empty name yields 400
Task name required, both before any state is loaded or saved. Otherwise the
handler loads the state, appends a task with id = len(active_tasks) + 1,
status pending and created_at = utcnow, saves to_dict of the new state, and
returns the task. -/
def add_task (c : Clock) (t : Nat) (st : StoreState) (body : ReqBody) :
    TaskResponse × StoreState × Nat :=
  match body with
  | ReqBody.invalid => (TaskResponse.badRequest ("Invalid JSON"), st, t)
  | ReqBody.json name descr prio =>
    if name.getD ("") = "" then
      (TaskResponse.badRequest ("Task name required"), st, t)
    else
      let loaded := load_state st
      let state := AgentState.ofRaw loaded.1
      let task : Task :=
        ⟨state.active_tasks.length + 1, name.getD (""), descr.getD (""),
         prio.getD ("normal"), "pending", c.now t⟩
      let state1 := { state with active_tasks := state.active_tasks ++ [task] }
      (TaskResponse.ok task, save_state state1.to_dict loaded.2, t + 1)

/-- A sequence of add_task requests, one per name, each with description and
priority absent, threading the store and the clock tick. -/
def addTasks (c : Clock) : List String → StoreState → Nat → StoreState × Nat
  | [], st, t => (st, t)
  | n :: rest, st, t =>
    let r := add_task c t st (ReqBody.json (some n) none none)
    addTasks c rest r.2.1 r.2.2

/-- The tasks a run of addTasks is expected to append when the backlog
already holds base tasks and the clock stands at tick t. -/
def expectedTasks (c : Clock) : List String → Nat → Nat → List Task
  | [], _, _ => []
  | n :: rest, base, t =>
    ⟨base + 1, n, "", "normal", "pending", c.now t⟩ :: expectedTasks c rest (base + 1) (t + 1)

/-- A concrete clock whose k-th utcnow result is the decimal numeral k, so
that distinct ticks yield distinct timestamp strings. -/
def clk0 : Clock := ⟨fun t => toString t⟩

/-- The pending task of the wake scenario: name t1, status pending. -/
def task1 : Task := ⟨1, "t1", "", "normal", "pending", "2026-01-01T00:00:00"⟩

/-- A state holding exactly one pending task. -/
def stateWithPending : AgentState := ⟨0, none, [task1], [], []⟩

/-- A state whose in-memory wake_history holds 150 entries. -/
def state150 : AgentState :=
  ⟨7, some ("2026-01-01T00:00:00"), [], [],
   (List.range 150).map fun i => ⟨i, none, 0, "healthy"⟩⟩

/-- A phase assignment whose message phase raises: used to exercise the
control flow of wake when a phase fails. -/
def badPhases : Phases :=
  ⟨fun _ => Except.error ("boom"),
   fun s => Except.ok (AgentCore.execute_tasks s),
   fun s => Except.ok (AgentCore.check_improvements s),
   fun r => Except.ok (AgentCore.update_metrics r)⟩

end OptimusAgent

namespace OptimusAgent

/-- Helper: closed form of one wake cycle. The returned result carries the
post-increment counter, the second utcnow sample as its timestamp, the
single task action when pending tasks exist, and the healthy marker; the
returned state is the post-increment state and two clock ticks are
consumed. -/
theorem wake_eq (c : Clock) (t : Nat) (s : AgentState) :
    AgentCore.wake c t s =
      (if AgentCore.execute_tasks s = [] then
         (⟨s.wake_count + 1, c.now (t + 1), [], "healthy"⟩ : WakeResult)
       else
         ⟨s.wake_count + 1, c.now (t + 1),
          ["Completed " ++ toString (AgentCore.execute_tasks s).length ++ " tasks"], "healthy"⟩,
       { s with wake_count := s.wake_count + 1, last_wake := some (c.now t) }, t + 2) := by
  have hs1 : AgentCore.execute_tasks
      { s with wake_count := s.wake_count + 1, last_wake := some (c.now t) }
      = AgentCore.execute_tasks s := rfl
  by_cases h : AgentCore.execute_tasks s = []
  · rw [if_pos h]
    show (if AgentCore.execute_tasks
        { s with wake_count := s.wake_count + 1, last_wake := some (c.now t) } ≠ [] then _ else _,
        _, _) = _
    rw [hs1, if_neg (by simp [h])]
    rfl
  · rw [if_neg h]
    show (if AgentCore.execute_tasks
        { s with wake_count := s.wake_count + 1, last_wake := some (c.now t) } ≠ [] then _ else _,
        _, _) = _
    rw [hs1, if_pos (by simp [h])]
    rfl

/-- Helper: the reported wake_number of one cycle is the incremented
counter. -/
theorem wake_wake_number (c : Clock) (t : Nat) (s : AgentState) :
    (AgentCore.wake c t s).1.wake_number = s.wake_count + 1 := by
  rw [wake_eq]
  split <;> rfl

/-- Helper: the result timestamp of one cycle is the second utcnow sample. -/
theorem wake_timestamp (c : Clock) (t : Nat) (s : AgentState) :
    (AgentCore.wake c t s).1.timestamp = c.now (t + 1) := by
  rw [wake_eq]
  split <;> rfl

/-- Helper: the result status of one cycle is always the healthy marker. -/
theorem wake_status (c : Clock) (t : Nat) (s : AgentState) :
    (AgentCore.wake c t s).1.status = "healthy" := by
  rw [wake_eq]
  split <;> rfl

/-- Helper: the action list of one cycle. -/
theorem wake_actions (c : Clock) (t : Nat) (s : AgentState) :
    (AgentCore.wake c t s).1.actions =
      if AgentCore.execute_tasks s = [] then []
      else ["Completed " ++ toString (AgentCore.execute_tasks s).length ++ " tasks"] := by
  rw [wake_eq]
  split <;> simp

/-- Helper: after n wake cycles the counter has grown by n. -/
theorem iterWake_wake_count (c : Clock) (n : Nat) :
    ∀ (s : AgentState) (t : Nat),
      (AgentCore.iterWake c n s t).1.wake_count = s.wake_count + n := by
  induction n with
  | zero => intro s t; rfl
  | succ n ih =>
    intro s t
    show (AgentCore.iterWake c n (AgentCore.wake c t s).2.1 (AgentCore.wake c t s).2.2).1.wake_count = _
    rw [ih]
    have hst : (AgentCore.wake c t s).2.1.wake_count = s.wake_count + 1 := rfl
    rw [hst]
    omega

/-- C1: starting from wake_count = 0, after N wake cycles the state has
wake_count = N, and the result of the N-th cycle reports wake_number = N
(the post-increment value). -/
theorem wake_count_equals_n_after_n_wakes (c : Clock) (N : Nat) (s : AgentState) (t : Nat)
    (h0 : s.wake_count = 0) (hN : 1 ≤ N) :
    (AgentCore.iterWake c N s t).1.wake_count = N
    ∧ (AgentCore.wake c (AgentCore.iterWake c (N - 1) s t).2
        (AgentCore.iterWake c (N - 1) s t).1).1.wake_number = N := by
  constructor
  · rw [iterWake_wake_count]
    omega
  · rw [wake_wake_number, iterWake_wake_count]
    omega

/-- Witness for C1 at N = 3 on a fresh state. -/
theorem wake_count_equals_n_after_n_wakes_witness :
    (AgentCore.iterWake clk0 3 AgentState.initEmpty 0).1.wake_count = 3
    ∧ (AgentCore.wake clk0 (AgentCore.iterWake clk0 (3 - 1) AgentState.initEmpty 0).2
        (AgentCore.iterWake clk0 (3 - 1) AgentState.initEmpty 0).1).1.wake_number = 3 :=
  wake_count_equals_n_after_n_wakes clk0 3 AgentState.initEmpty 0 rfl (by decide)

end OptimusAgent

namespace OptimusAgent

/-- C2: to_dict always returns at most 100 history entries, namely a
suffix (the most recent entries, in order) of the in-memory history of
length min 100 len, and returns the other four fields unmodified; on the
concrete 150-entry state the returned history is exactly the last 100
entries. -/
theorem to_dict_caps_wake_history (s : AgentState) :
    (s.to_dict).wake_history.length ≤ 100
    ∧ (s.to_dict).wake_history.length = min 100 s.wake_history.length
    ∧ (s.to_dict).wake_history <:+ s.wake_history
    ∧ (s.to_dict).wake_count = s.wake_count
    ∧ (s.to_dict).last_wake = s.last_wake
    ∧ (s.to_dict).active_tasks = s.active_tasks
    ∧ (s.to_dict).capabilities = s.capabilities
    ∧ state150.wake_history.length = 150
    ∧ (state150.to_dict).wake_history = state150.wake_history.drop 50 := by
  refine ⟨?_, ?_, List.drop_suffix _ _, rfl, rfl, rfl, rfl, ?_, ?_⟩
  · simp only [AgentState.to_dict, List.length_drop]
    omega
  · simp only [AgentState.to_dict, List.length_drop]
    omega
  · simp [state150]
  · have hlen : state150.wake_history.length = 150 := by simp [state150]
    simp only [AgentState.to_dict, hlen]

/-- C3: reconstructing an AgentState from to_dict output reproduces
wake_count, last_wake, active_tasks and capabilities exactly and the
capped history, and serialization is idempotent across the round trip. -/
theorem state_roundtrip (s : AgentState) :
    (AgentState.init s.to_dict).wake_count = s.wake_count
    ∧ (AgentState.init s.to_dict).last_wake = s.last_wake
    ∧ (AgentState.init s.to_dict).active_tasks = s.active_tasks
    ∧ (AgentState.init s.to_dict).capabilities = s.capabilities
    ∧ (AgentState.init s.to_dict).wake_history = (s.to_dict).wake_history
    ∧ (AgentState.init s.to_dict).to_dict = s.to_dict := by
  refine ⟨rfl, rfl, rfl, rfl, rfl, ?_⟩
  have h0 : s.wake_history.length - (s.wake_history.length - 100) - 100 = 0 := by
    omega
  simp [AgentState.to_dict, AgentState.init, h0]

/-- C6 counterexample: on the concrete clock whose ticks are distinct
numerals, the result timestamp of a wake differs from the last_wake
written by increment_wake in the same cycle, because the code samples
utcnow a second time for the result record. -/
theorem wake_timestamp_ne_last_wake_cex :
    (AgentCore.wake clk0 0 AgentState.initEmpty).2.1.last_wake
      ≠ some (AgentCore.wake clk0 0 AgentState.initEmpty).1.timestamp := by
  decide

/-- C6 amended: the result has wake_number equal to the post-increment
wake_count, last_wake holds the utcnow sampled inside increment_wake, and
the result timestamp holds the next utcnow sample, taken when the result
record is built. -/
theorem wake_result_fields (c : Clock) (t : Nat) (s : AgentState) :
    (AgentCore.wake c t s).1.wake_number = s.wake_count + 1
    ∧ (AgentCore.wake c t s).1.wake_number = (AgentCore.wake c t s).2.1.wake_count
    ∧ (AgentCore.wake c t s).2.1.last_wake = some (c.now t)
    ∧ (AgentCore.wake c t s).1.timestamp = c.now (t + 1) :=
  ⟨wake_wake_number c t s, by rw [wake_wake_number]; rfl, rfl, wake_timestamp c t s⟩

/-- C9: with no storage connection configured, the first load returns the
empty mapping (none models the empty Python dict), and a load immediately
after save d returns exactly d, via the in-process fallback cache. -/
theorem store_fallback_roundtrip (d : StateDict) (st : StoreState) :
    (load_state initialStore).1 = none
    ∧ (load_state (save_state d st)).1 = some d :=
  ⟨rfl, rfl⟩

/-- C10: a wake cycle mutates only wake_count and last_wake: active_tasks,
capabilities and wake_history are returned exactly as they were; the
history entry for the cycle is appended only by the separate record_wake
call. -/
theorem wake_frame (c : Clock) (t : Nat) (s : AgentState) :
    (AgentCore.wake c t s).2.1.active_tasks = s.active_tasks
    ∧ (AgentCore.wake c t s).2.1.capabilities = s.capabilities
    ∧ (AgentCore.wake c t s).2.1.wake_history = s.wake_history
    ∧ (AgentCore.wake c t s).2.1.wake_count = s.wake_count + 1
    ∧ (AgentCore.wake c t s).2.1.last_wake = some (c.now t)
    ∧ ∀ r : WakeResult,
        (AgentState.record_wake r (AgentCore.wake c t s).2.1).wake_history
          = s.wake_history ++ [⟨s.wake_count + 1, some (c.now t), r.actions.length, r.status⟩] :=
  ⟨rfl, rfl, rfl, rfl, rfl, fun _ => rfl⟩

end OptimusAgent

namespace OptimusAgent

/-- C4 counterexample: with a phase implementation whose message phase
raises, wake propagates the exception instead of catching it — no result
record is produced — although the already-applied increment survives on
the state. -/
theorem wake_phase_exception_not_caught_cex :
    (AgentCore.wakeWith badPhases clk0 0 AgentState.initEmpty).1 = Except.error ("boom")
    ∧ (AgentCore.wakeWith badPhases clk0 0 AgentState.initEmpty).2.1.wake_count = 1 :=
  ⟨rfl, rfl⟩

/-- C4 amended: the body of wake contains no per-phase exception handling.
A phase that raises aborts the cycle: the exception propagates out of
wakeWith and no result record is returned, though the increment already
applied in place is kept. With the phases actually present in the code no
exception can occur: wakeWith over defaultPhases always returns the plain
wake result, whose status is always healthy. -/
theorem wake_no_phase_exception_handling (p : Phases) (c : Clock) (t : Nat) (s : AgentState)
    (e : String) (h : p.check_messages (AgentState.increment_wake c t s).1 = Except.error e) :
    (AgentCore.wakeWith p c t s).1 = Except.error e
    ∧ (AgentCore.wakeWith p c t s).2.1.wake_count = s.wake_count + 1
    ∧ (AgentCore.wakeWith p c t s).2.1.last_wake = some (c.now t)
    ∧ (AgentCore.wakeWith AgentCore.defaultPhases c t s).1 = Except.ok (AgentCore.wake c t s).1
    ∧ (AgentCore.wake c t s).1.status = "healthy" := by
  refine ⟨?_, rfl, rfl, rfl, wake_status c t s⟩
  show (match p.check_messages (AgentState.increment_wake c t s).1 with
    | Except.error e => Except.error e
    | Except.ok _ => _) = Except.error e
  rw [h]

/-- Witness for the C4 amended theorem on the concrete failing phases. -/
theorem wake_no_phase_exception_handling_witness :
    (AgentCore.wakeWith badPhases clk0 0 stateWithPending).1 = Except.error ("boom")
    ∧ (AgentCore.wakeWith badPhases clk0 0 stateWithPending).2.1.wake_count
        = stateWithPending.wake_count + 1
    ∧ (AgentCore.wakeWith badPhases clk0 0 stateWithPending).2.1.last_wake
        = some (clk0.now 0)
    ∧ (AgentCore.wakeWith AgentCore.defaultPhases clk0 0 stateWithPending).1
        = Except.ok (AgentCore.wake clk0 0 stateWithPending).1
    ∧ (AgentCore.wake clk0 0 stateWithPending).1.status = "healthy" :=
  wake_no_phase_exception_handling badPhases clk0 0 stateWithPending ("boom") rfl

/-- C5: when at least one stored task is pending, the wake result contains
the action string reporting the number of pending tasks processed, and the
stored task list — in particular every status field — is unchanged. -/
theorem wake_reports_pending_without_mutation (c : Clock) (t : Nat) (s : AgentState)
    (h : ∃ task ∈ s.active_tasks, task.status = "pending") :
    ("Completed "
      ++ toString (s.active_tasks.filter fun task => task.status == "pending").length
      ++ " tasks") ∈ (AgentCore.wake c t s).1.actions
    ∧ (AgentCore.wake c t s).2.1.active_tasks = s.active_tasks := by
  refine ⟨?_, rfl⟩
  have hne : AgentCore.execute_tasks s ≠ [] := by
    obtain ⟨task, htask, hstat⟩ := h
    simp only [AgentCore.execute_tasks, ne_eq, List.map_eq_nil_iff, List.filter_eq_nil_iff]
    push_neg
    exact ⟨task, htask, by simp [hstat]⟩
  rw [wake_actions, if_neg hne]
  simp [AgentCore.execute_tasks]

/-- Witness for C5 on a state holding one pending task named t1. -/
theorem wake_reports_pending_without_mutation_witness :
    ("Completed "
      ++ toString (stateWithPending.active_tasks.filter fun task => task.status == "pending").length
      ++ " tasks") ∈ (AgentCore.wake clk0 0 stateWithPending).1.actions
    ∧ (AgentCore.wake clk0 0 stateWithPending).2.1.active_tasks = stateWithPending.active_tasks :=
  wake_reports_pending_without_mutation clk0 0 stateWithPending
    ⟨task1, by decide, rfl⟩

/-- Helper: one valid add_task request appends one task whose id is the
current backlog length plus one, with pending status, echoing the task in
the success response and advancing the clock by one tick. -/
theorem add_task_valid (c : Clock) (t : Nat) (st : StoreState) (nm : String) (h : nm ≠ "") :
    (add_task c t st (ReqBody.json (some nm) none none)).2.1.backlog
      = st.backlog ++ [⟨st.backlog.length + 1, nm, "", "normal", "pending", c.now t⟩]
    ∧ (add_task c t st (ReqBody.json (some nm) none none)).2.2 = t + 1
    ∧ (add_task c t st (ReqBody.json (some nm) none none)).1
      = TaskResponse.ok ⟨st.backlog.length + 1, nm, "", "normal", "pending", c.now t⟩ := by
  simp only [add_task, Option.getD_some]
  rw [if_neg h]
  exact ⟨rfl, rfl, rfl⟩

/-- Helper: a run of valid add_task requests appends exactly the expected
tasks, numbered consecutively from the current backlog length. -/
theorem addTasks_backlog (c : Clock) (names : List String) :
    ∀ (st : StoreState) (t : Nat), (∀ n ∈ names, n ≠ ("")) →
      (addTasks c names st t).1.backlog
        = st.backlog ++ expectedTasks c names st.backlog.length t := by
  induction names with
  | nil => intro st t _; simp [addTasks, expectedTasks]
  | cons n rest ih =>
    intro st t h
    have hn : n ≠ "" := h n (by simp)
    have hstep := add_task_valid c t st n hn
    show (addTasks c rest (add_task c t st (ReqBody.json (some n) none none)).2.1
      (add_task c t st (ReqBody.json (some n) none none)).2.2).1.backlog = _
    rw [hstep.2.1, ih _ _ (fun m hm => h m (by simp [hm])), hstep.1]
    simp [expectedTasks, List.length_append]

/-- Helper: the ids of the expected tasks count up from base + 1. -/
theorem expectedTasks_map_id (c : Clock) (names : List String) :
    ∀ (base t : Nat),
      (expectedTasks c names base t).map Task.id = List.range' (base + 1) names.length := by
  induction names with
  | nil => intro base t; rfl
  | cons n rest ih =>
    intro base t
    simp [expectedTasks, ih, List.range'_succ]

/-- Helper: the names of the expected tasks are the request names in
order. -/
theorem expectedTasks_map_name (c : Clock) (names : List String) :
    ∀ (base t : Nat), (expectedTasks c names base t).map Task.name = names := by
  induction names with
  | nil => intro base t; rfl
  | cons n rest ih =>
    intro base t
    simp [expectedTasks, ih]

/-- Helper: every expected task carries the pending status. -/
theorem expectedTasks_pending (c : Clock) (names : List String) :
    ∀ (base t : Nat) (task : Task), task ∈ expectedTasks c names base t →
      task.status = "pending" := by
  induction names with
  | nil => intro base t task htask; simp [expectedTasks] at htask
  | cons n rest ih =>
    intro base t task htask
    simp only [expectedTasks, List.mem_cons] at htask
    rcases htask with h | h
    · rw [h]
    · exact ih _ _ _ h

/-- C7: starting from an empty backlog, a sequence of successful
task-creation requests yields tasks whose ids are exactly 1, 2, ..., k,
appended in arrival order with pending status. -/
theorem add_task_sequential_ids (c : Clock) (names : List String) (st : StoreState) (t : Nat)
    (hne : ∀ n ∈ names, n ≠ ("")) (h0 : st.backlog = []) :
    ((addTasks c names st t).1.backlog).map Task.id = List.range' 1 names.length
    ∧ ((addTasks c names st t).1.backlog).map Task.name = names
    ∧ ∀ task ∈ (addTasks c names st t).1.backlog, task.status = "pending" := by
  rw [addTasks_backlog c names st t hne, h0]
  simp only [List.nil_append, List.length_nil]
  exact ⟨expectedTasks_map_id c names 0 t, expectedTasks_map_name c names 0 t,
    fun task htask => expectedTasks_pending c names 0 t task htask⟩

/-- Witness for C7 on three concrete task names over the initial store. -/
theorem add_task_sequential_ids_witness :
    ((addTasks clk0 ["a", "b", "c"] initialStore 0).1.backlog).map Task.id
      = List.range' 1 (["a", "b", "c"] : List String).length
    ∧ ((addTasks clk0 ["a", "b", "c"] initialStore 0).1.backlog).map Task.name
      = ["a", "b", "c"]
    ∧ ∀ task ∈ (addTasks clk0 ["a", "b", "c"] initialStore 0).1.backlog,
        task.status = "pending" :=
  add_task_sequential_ids clk0 ["a", "b", "c"] initialStore 0 (by decide) rfl

/-- C8: a request whose body is not valid JSON, or whose name is missing
or empty, is answered with a 400 error response, and neither the backlog
nor anything else in the store is touched (no load, no save, no clock
tick). -/
theorem add_task_invalid_rejected (c : Clock) (t : Nat) (st : StoreState) (body : ReqBody)
    (h : body = ReqBody.invalid
      ∨ ∃ d pr, body = ReqBody.json none d pr ∨ body = ReqBody.json (some ("")) d pr) :
    (∃ msg, (add_task c t st body).1 = TaskResponse.badRequest msg)
    ∧ (add_task c t st body).2.1 = st
    ∧ (add_task c t st body).2.2 = t := by
  rcases h with h | ⟨d, pr, h | h⟩ <;> subst h
  · exact ⟨⟨"Invalid JSON", rfl⟩, rfl, rfl⟩
  · exact ⟨⟨"Task name required", rfl⟩, rfl, rfl⟩
  · exact ⟨⟨"Task name required", rfl⟩, rfl, rfl⟩

/-- Witness for C8 on a body with the name field missing. -/
theorem add_task_invalid_rejected_witness :
    (∃ msg, (add_task clk0 0 initialStore (ReqBody.json none none none)).1
      = TaskResponse.badRequest msg)
    ∧ (add_task clk0 0 initialStore (ReqBody.json none none none)).2.1 = initialStore
    ∧ (add_task clk0 0 initialStore (ReqBody.json none none none)).2.2 = 0 :=
  add_task_invalid_rejected clk0 0 initialStore (ReqBody.json none none none)
    (Or.inr ⟨none, none, Or.inl rfl⟩)

end OptimusAgent
